import Mathlib

/-!
Shallow embedding of the AI interview coach repository (interviewer agent,
analyzer agent, master agent, frontend interview service, and the
analyze-answer edge function), together with proofs settling the frozen
claims about question selection, difficulty adaptation, category
diversification, termination, parse fallback, score aggregation, trend
detection, retry behaviour, session invariants and feedback score bounds.

Numbers that are JavaScript floats in the source are modelled as rationals;
`Math.round` is modelled as `fun x => ⌊x + 1/2⌋`, which is its behaviour on
the non-negative values that occur here.
-/

inductive Difficulty where
  | easy
  | medium
  | hard
deriving DecidableEq

/-- A question of the static bank.  The free-text fields of the source record
(`question`, `context`, `expectedElements`) are omitted: no claim depends on
them, and none of the embedded logic reads them. -/
structure InterviewQuestion where
  id : String
  category : String
  difficulty : Difficulty
deriving DecidableEq

/-- The interviewer agent's question bank, from
`InterviewerAgent.initializeQuestionBank` (6 entries). -/
def questionBank : List InterviewQuestion :=
  [ { id := "intro-1", category := "introduction", difficulty := Difficulty.easy },
    { id := "experience-1", category := "experience", difficulty := Difficulty.medium },
    { id := "technical-1", category := "technical", difficulty := Difficulty.medium },
    { id := "leadership-1", category := "leadership", difficulty := Difficulty.hard },
    { id := "conflict-1", category := "behavioral", difficulty := Difficulty.hard },
    { id := "growth-1", category := "development", difficulty := Difficulty.medium } ]

/-- The frontend service's question bank, from
`InterviewService.initializeQuestionBank` (8 entries). -/
def serviceQuestionBank : List InterviewQuestion :=
  [ { id := "intro-1", category := "introduction", difficulty := Difficulty.easy },
    { id := "experience-1", category := "experience", difficulty := Difficulty.medium },
    { id := "technical-1", category := "technical", difficulty := Difficulty.medium },
    { id := "leadership-1", category := "leadership", difficulty := Difficulty.hard },
    { id := "conflict-1", category := "behavioral", difficulty := Difficulty.hard },
    { id := "growth-1", category := "development", difficulty := Difficulty.medium },
    { id := "innovation-1", category := "innovation", difficulty := Difficulty.hard },
    { id := "pressure-1", category := "behavioral", difficulty := Difficulty.medium } ]

/-- An entry of `context.questionsAsked`.  `handleCandidateAnswer` pushes
`\x7b questionId, question, answer, timestamp \x7d`; the record carries NO
`category` field, so the later read of `.category` in `selectNextQuestion`
yields `undefined` at runtime.  The absent field is modelled as
`category : Option String`, and the only constructor of entries
(`stepInterviewer` below) always stores `none` there.  The `question` text and
`timestamp` fields are omitted (no claim or logic reads them). -/
structure AskedEntry where
  questionId : String
  answer : String
  category : Option String
deriving DecidableEq

/-- The per-session context created by `InterviewerAgent.handleStartSession`.
The `candidateProfile` payload is omitted; `startTime` is an abstract clock
value. -/
structure SessionContext where
  currentQuestionIndex : ℕ
  questionsAsked : List AskedEntry
  difficulty : Difficulty
  startTime : ℕ
deriving DecidableEq

/-- `questionsAsked.map(q => q.questionId)` in `selectNextQuestion`. -/
def askedIds (ctx : SessionContext) : List String :=
  ctx.questionsAsked.map (fun e => e.questionId)

/-- The first filter of `selectNextQuestion`: unasked questions whose
difficulty matches the session difficulty, the difficulty condition being
waived when no question has been asked yet. -/
def availableQuestions (bank : List InterviewQuestion) (ctx : SessionContext) :
    List InterviewQuestion :=
  bank.filter (fun q =>
    decide (q.id ∉ askedIds ctx ∧
      (q.difficulty = ctx.difficulty ∨ ctx.questionsAsked.length = 0)))

/-- The fallback filter of `selectNextQuestion`: all unasked questions. -/
def remainingQuestions (bank : List InterviewQuestion) (ctx : SessionContext) :
    List InterviewQuestion :=
  bank.filter (fun q => decide (q.id ∉ askedIds ctx))

/-- `lastCategory` in `selectNextQuestion`:
`questionsAsked.length > 0 ? questionsAsked[last].category : null`.
Since the pushed entries carry no `category` field (see `AskedEntry`), the
runtime value is `undefined` in the first case and `null` in the second;
both compare `!==` to every string. -/
def lastCategoryOf (ctx : SessionContext) : Option String :=
  ctx.questionsAsked.getLast?.bind (fun e => e.category)

/-- The candidate list the random index is drawn from: questions of a
category different from `lastCategory` when any exist, otherwise all
available questions. -/
def selectedCandidates (bank : List InterviewQuestion) (ctx : SessionContext) :
    List InterviewQuestion :=
  let available := availableQuestions bank ctx
  let differentCategoryQuestions :=
    available.filter (fun q => decide (some q.category ≠ lastCategoryOf ctx))
  if 0 < differentCategoryQuestions.length then differentCategoryQuestions
  else available

/-- `Math.floor(rand * length)` with `rand = Math.random() ∈ [0, 1)`. -/
def jsFloorIndex (rand : ℚ) (n : ℕ) : ℕ :=
  (⌊rand * (n : ℚ)⌋).toNat

/-- `InterviewerAgent.selectNextQuestion`.  The `Math.random()` draw is made
explicit as the `rand` parameter. -/
def selectNextQuestion (bank : List InterviewQuestion) (ctx : SessionContext)
    (rand : ℚ) : Option InterviewQuestion :=
  if (availableQuestions bank ctx).length = 0 then
    (remainingQuestions bank ctx).head?
  else
    (selectedCandidates bank ctx)[jsFloorIndex rand (selectedCandidates bank ctx).length]?

/-- The difficulty update of `InterviewerAgent.handleNextQuestion`.
`previousScore` is `previousFeedback?.score`; the source guard
`if (previousFeedback?.score)` is a JavaScript truthiness test, so a score
of `0` skips the whole update. -/
def updateDifficulty (d : Difficulty) (previousScore : Option ℚ) : Difficulty :=
  match previousScore with
  | none => d
  | some s =>
    if s = 0 then d
    else if 8 ≤ s then Difficulty.hard
    else if 6 ≤ s then Difficulty.medium
    else Difficulty.easy

/-- What `handleNextQuestion` emits: either the `interview-complete` command
(whose summary payload is omitted here: no claim depends on it) or the next
question message. -/
inductive NextQuestionOutcome where
  | interviewComplete
  | askQuestion (q : InterviewQuestion)
deriving DecidableEq

/-- `InterviewerAgent.handleNextQuestion` for an existing session: adjust the
difficulty from the previous feedback, then select, then emit. -/
def handleNextQuestion (ctx : SessionContext) (previousScore : Option ℚ)
    (rand : ℚ) : SessionContext × NextQuestionOutcome :=
  let ctx2 := { ctx with difficulty := updateDifficulty ctx.difficulty previousScore }
  match selectNextQuestion questionBank ctx2 rand with
  | none => (ctx2, NextQuestionOutcome.interviewComplete)
  | some q => (ctx2, NextQuestionOutcome.askQuestion q)

/-- `InterviewService.askNextQuestion`, as a function of the current question
index: `none` means the interview is ended (`endInterview`), otherwise the
asked question and the incremented index are returned. -/
def serviceAskNextQuestion (currentQuestionIndex : ℕ) :
    Option (InterviewQuestion × ℕ) :=
  if serviceQuestionBank.length ≤ currentQuestionIndex then none
  else (serviceQuestionBank[currentQuestionIndex]?).map
    (fun q => (q, currentQuestionIndex + 1))

/-- The session-context map of the interviewer agent (`this.sessionContext`,
a JavaScript `Map`), modelled by its lookup function. -/
def SessionsMap : Type := String → Option SessionContext

/-- `Map.set`. -/
def mapSet (m : SessionsMap) (k : String) (v : SessionContext) : SessionsMap :=
  fun k2 => if k2 = k then some v else m k2

/-- The state-changing operations of the interviewer agent.  `startSession`
carries the generated session id and the clock value used for `startTime`;
`candidateAnswer` carries the answered question id and the answer text;
`nextQuestion` carries the optional previous-feedback score and the random
draw; `generateAudio` reads no session state. -/
inductive InterviewerOp where
  | startSession (sessionId : String) (now : ℕ)
  | candidateAnswer (sessionId : String) (questionId : String) (answer : String)
  | nextQuestion (sessionId : String) (previousScore : Option ℚ) (rand : ℚ)
  | generateAudio (sessionId : String) (text : String)

/-- The effect of each interviewer-agent handler on the session map.
`handleStartSession` installs a fresh context; `handleCandidateAnswer` throws
(leaving the map unchanged) when no context exists and otherwise pushes
exactly one entry — with no `category` field — onto `questionsAsked`;
`handleNextQuestion` only rewrites the difficulty; no handler deletes a key. -/
def stepInterviewer (sessions : SessionsMap) : InterviewerOp → SessionsMap
  | InterviewerOp.startSession sid now =>
      mapSet sessions sid
        { currentQuestionIndex := 0, questionsAsked := [],
          difficulty := Difficulty.easy, startTime := now }
  | InterviewerOp.candidateAnswer sid qid ans =>
      match sessions sid with
      | none => sessions
      | some ctx =>
          mapSet sessions sid
            { ctx with questionsAsked :=
                ctx.questionsAsked ++ [{ questionId := qid, answer := ans, category := none }] }
  | InterviewerOp.nextQuestion sid previousScore _ =>
      match sessions sid with
      | none => sessions
      | some ctx =>
          mapSet sessions sid
            { ctx with difficulty := updateDifficulty ctx.difficulty previousScore }
  | InterviewerOp.generateAudio _ _ => sessions

/-- JSON values, for the analyze-answer edge function's parse result. -/
inductive Json where
  | null
  | bool (b : Bool)
  | num (q : ℚ)
  | str (s : String)
  | arr (elems : List Json)
  | obj (fields : List (String × Json))

/-- The hardcoded fallback analysis object of the edge function's
`catch (parseError)` branch. -/
def fallbackAnalysis (category : String) : Json :=
  Json.obj
    [ ("score", Json.num 7),
      ("strengths", Json.arr
        [Json.str "Clear communication", Json.str "Relevant experience mentioned"]),
      ("weaknesses", Json.arr
        [Json.str "Could provide more specific examples",
         Json.str "Answer could be more structured"]),
      ("improvements", Json.arr
        [Json.str "Use the STAR method (Situation, Task, Action, Result)",
         Json.str "Practice providing concrete examples"]),
      ("category", Json.str category),
      ("overall_feedback",
        Json.str "Good foundation but could be more detailed and structured.") ]

/-- The HTTP response of the edge function: a `Response` built without an
explicit status has status 200. -/
structure EdgeResponse where
  status : ℕ
  success : Bool
  analysis : Option Json
  error : Option String

/-- Outcome of the Mistral API `fetch`: a non-ok HTTP response, or an ok
response whose message content was fed to `JSON.parse` — `ok parsed` carries
the parse result, `none` when parsing threw. -/
inductive MistralOutcome where
  | httpError (code : ℕ)
  | ok (parsed : Option Json)

/-- The `serve` handler of `supabase/functions/analyze-answer/index.ts`
(CORS preflight aside).  Absent request fields are modelled as `""`, which is
falsy like `undefined` under the source's `!question || !answer` test;
`Deno.env.get` is an `Option String` whose `some ""` is also falsy. -/
def analyzeAnswerHandler (question answer category : String)
    (mistralApiKey : Option String) (outcome : MistralOutcome) : EdgeResponse :=
  if question = "" ∨ answer = "" then
    { status := 500, success := false, analysis := none,
      error := some "Question and answer are required" }
  else
    match mistralApiKey with
    | none =>
        { status := 500, success := false, analysis := none,
          error := some "Mistral API key not found" }
    | some key =>
        if key = "" then
          { status := 500, success := false, analysis := none,
            error := some "Mistral API key not found" }
        else
          match outcome with
          | MistralOutcome.httpError code =>
              { status := 500, success := false, analysis := none,
                error := some ("Mistral API error: " ++ toString code) }
          | MistralOutcome.ok parsed =>
              { status := 200, success := true,
                analysis := some (parsed.getD (fallbackAnalysis category)),
                error := none }

/-- The analyzer agent's `AnalysisResult` (also the frontend service's
identical `AnalysisResult` interface). -/
structure AnalysisResult where
  score : ℚ
  strengths : List String
  weaknesses : List String
  tips : List String
  detailedFeedback : String
  categoryScore : ℚ
  improvementAreas : List String
deriving DecidableEq

/-- `Math.round(x * 10) / 10`: rounding to one decimal place.  On the
non-negative values that occur here `Math.round` is `⌊x + 1/2⌋`. -/
def round1 (x : ℚ) : ℚ :=
  ((⌊x * 10 + 1 / 2⌋ : ℤ) : ℚ) / 10

/-- `Object.keys` of the occurrence-count object built by
`countOccurrences`: the distinct items in first-occurrence order. -/
def dedupFirst (l : List String) : List String :=
  l.foldl (fun acc x => if x ∈ acc then acc else acc ++ [x]) []

/-- The `reduce` that picks the most frequent key:
`keys.reduce((a, b) => counts[a] > counts[b] ? a : b, seed)`.  A missing key
(only possible for the seed) counts 0, which compares like the source's
`undefined > n` (false). -/
def areaFold (keys : List String) (all : List String) (seed : String) : String :=
  keys.foldl (fun a b => if all.count b < all.count a then a else b) seed

/-- The trend computation of `AnalyzerAgent.getSessionStats`: `'stable'`
unless at least 3 scores exist, in which case the score list is split at
`floor(n / 2)` and the half means are compared against a 0.5 margin. -/
def sessionTrend (scores : List ℚ) : String :=
  if 3 ≤ scores.length then
    let firstHalf := scores.take (scores.length / 2)
    let secondHalf := scores.drop (scores.length / 2)
    let firstAvg := firstHalf.foldl (fun sum score => sum + score) 0 / (firstHalf.length : ℚ)
    let secondAvg := secondHalf.foldl (fun sum score => sum + score) 0 / (secondHalf.length : ℚ)
    if firstAvg + 1 / 2 < secondAvg then "improving"
    else if secondAvg < firstAvg - 1 / 2 then "declining"
    else "stable"
  else "stable"

/-- The record returned by `AnalyzerAgent.getSessionStats`. -/
structure SessionStats where
  averageScore : ℚ
  totalQuestions : ℕ
  strongestArea : String
  weakestArea : String
  overallTrend : String
deriving DecidableEq

/-- `AnalyzerAgent.getSessionStats`. -/
def getSessionStats (analyses : List AnalysisResult) : SessionStats :=
  if analyses.length = 0 then
    { averageScore := 0, totalQuestions := 0, strongestArea := "N/A",
      weakestArea := "N/A", overallTrend := "N/A" }
  else
    let scores := analyses.map (fun a => a.score)
    let allStrengths := analyses.flatMap (fun a => a.strengths)
    let allWeaknesses := analyses.flatMap (fun a => a.weaknesses)
    { averageScore :=
        round1 (scores.foldl (fun sum score => sum + score) 0 / (scores.length : ℚ)),
      totalQuestions := analyses.length,
      strongestArea := areaFold (dedupFirst allStrengths) allStrengths "Communication",
      weakestArea := areaFold (dedupFirst allWeaknesses) allWeaknesses "Specificity",
      overallTrend := sessionTrend scores }

/-- Message kinds of the frontend service's `InterviewMessage`. -/
inductive MsgType where
  | question
  | answer
  | feedback
deriving DecidableEq

/-- The frontend service's `InterviewMessage`. -/
structure InterviewMessage where
  id : String
  type : MsgType
  content : String
  feedback : Option AnalysisResult
deriving DecidableEq

/-- `InterviewService.calculateAverageScore`.  The summand
`msg.feedback?.score || 0` is the score when feedback is present (a score of
`0` maps to `0` either way) and `0` otherwise. -/
def calculateAverageScore (messageHistory : List InterviewMessage) : ℚ :=
  let feedbackMessages :=
    messageHistory.filter (fun m => decide (m.type = MsgType.feedback ∧ m.feedback ≠ none))
  if feedbackMessages.length = 0 then 0
  else
    let totalScore := feedbackMessages.foldl
      (fun sum msg => sum + ((msg.feedback.map (fun f => f.score)).getD 0)) 0
    round1 (totalScore / (feedbackMessages.length : ℚ))

/-- `answerLower.includes(keyword)`: substring containment. -/
def strContains (s pat : String) : Bool :=
  decide (List.IsInfix pat.toList s.toList)

/-- `InterviewService.calculateScore`: up to 5 length points
(`Math.min(5, wordCount / 20)`), 1 point per matched keyword, 0.5-point
bonuses for answers longer than 100 and 200 words, capped at 9.
`wordCount` is `answer.split(' ').length`; lowercasing is modelled
characterwise. -/
def calculateScore (answer : String) (expectedKeywords : List String) : ℚ :=
  let answerLower := answer.map Char.toLower
  let wordCount := (answer.splitOn " ").length
  let base : ℚ := min 5 ((wordCount : ℚ) / 20)
  let withKeywords := base +
    ((expectedKeywords.filter (fun k => strContains answerLower (k.map Char.toLower))).length : ℚ)
  let withBonus := withKeywords +
    (if 100 < wordCount then (1 : ℚ) / 2 else 0) +
    (if 200 < wordCount then (1 : ℚ) / 2 else 0)
  min 9 withBonus

/-- One template of `generateFeedback`'s `analysisTemplates` object. -/
structure FeedbackTemplate where
  score : ℚ
  strengths : List String
  weaknesses : List String
  tips : List String

/-- The `analysisTemplates` lookup with its `|| analysisTemplates.introduction`
default; each template's score comes from `calculateScore` on the answer with
the template's keyword list. -/
def analysisTemplates (answer category : String) : FeedbackTemplate :=
  if category = "introduction" then
    { score := calculateScore answer ["background", "experience", "motivation"],
      strengths :=
        [ "Clear structure and logical flow",
          "Relevant experience mentioned",
          "Confident tone and enthusiasm" ],
      weaknesses :=
        [ "Could provide more specific examples",
          "Consider mentioning quantifiable achievements",
          "Opportunity to better connect experience to role" ],
      tips :=
        [ "Use the STAR method (Situation, Task, Action, Result) for stronger examples",
          "Quantify your achievements with numbers and metrics when possible",
          "Research the company more deeply to show specific interest" ] }
  else if category = "experience" then
    { score := calculateScore answer ["challenge", "solution", "result", "collaboration"],
      strengths :=
        [ "Specific project example provided",
          "Clear problem identification",
          "Good demonstration of problem-solving skills",
          "Mentioned collaboration effectively" ],
      weaknesses :=
        [ "Could elaborate more on the results achieved",
          "Missing discussion of lessons learned",
          "Limited mention of stakeholder management" ],
      tips :=
        [ "Always conclude with measurable results and impact",
          "Include what you learned from the experience",
          "Mention how you managed different stakeholders during challenges" ] }
  else if category = "technical" then
    { score := calculateScore answer ["systematic", "tools", "process", "testing"],
      strengths :=
        [ "Methodical approach to problem-solving",
          "Good understanding of debugging tools",
          "Clear explanation of technical concepts" ],
      weaknesses :=
        [ "Could provide more specific tool examples",
          "Missing discussion of prevention strategies",
          "Limited mention of documentation practices" ],
      tips :=
        [ "Name specific debugging tools and their use cases",
          "Discuss how you prevent similar issues in the future",
          "Mention the importance of documenting solutions for team knowledge" ] }
  else if category = "leadership" then
    { score := calculateScore answer ["leadership", "communication", "motivation", "change"],
      strengths :=
        [ "Strong leadership qualities demonstrated",
          "Effective communication strategies mentioned",
          "Good understanding of change management" ],
      weaknesses :=
        [ "Could provide more specific examples of team motivation",
          "Missing discussion of individual team member needs",
          "Limited mention of measuring success" ],
      tips :=
        [ "Describe specific techniques for motivating different personality types",
          "Explain how you adapt your leadership style to individual needs",
          "Include metrics or indicators you use to measure team success" ] }
  else
    { score := calculateScore answer ["background", "experience", "motivation"],
      strengths :=
        [ "Clear structure and logical flow",
          "Relevant experience mentioned",
          "Confident tone and enthusiasm" ],
      weaknesses :=
        [ "Could provide more specific examples",
          "Consider mentioning quantifiable achievements",
          "Opportunity to better connect experience to role" ],
      tips :=
        [ "Use the STAR method (Situation, Task, Action, Result) for stronger examples",
          "Quantify your achievements with numbers and metrics when possible",
          "Research the company more deeply to show specific interest" ] }

/-- `InterviewService.generateDetailedFeedback` (the `answer` argument is
unused in the source as well). -/
def generateDetailedFeedback (answer category : String) : String :=
  let _ := answer
  if category = "introduction" then
    "Your response shows good self-awareness and enthusiasm. The structure is logical and flows well. To strengthen your answer, consider adding more specific examples of your achievements with quantifiable results."
  else if category = "experience" then
    "Excellent use of a specific example to demonstrate your experience. You clearly articulated the challenge and your approach. To make this even stronger, emphasize the concrete results and lessons learned."
  else if category = "technical" then
    "Your technical explanation demonstrates solid understanding. The methodical approach you described is valuable. Consider adding more details about specific tools and prevention strategies."
  else if category = "leadership" then
    "Strong demonstration of leadership capabilities. Your communication strategies are well-thought-out. To enhance this further, include specific examples of how you measure team success."
  else
    "Good overall response with clear communication. Your answer shows relevant experience and understanding. Focus on providing more specific examples and quantifiable outcomes."

/-- `InterviewService.generateFeedback`.  The `Math.random()` draw behind
`scoreVariation` is the explicit parameter `r ∈ [0, 1)`; the category falls
back to `'general'` when the question id is unknown (or its category empty,
mirroring the `||`). -/
def generateFeedback (questionId answer : String) (r : ℚ) : AnalysisResult :=
  let question := serviceQuestionBank.find? (fun q => q.id == questionId)
  let category :=
    match question with
    | some q => if q.category = "" then "general" else q.category
    | none => "general"
  let template := analysisTemplates answer category
  let scoreVariation := (r - 1 / 2) * (3 / 2)
  let finalScore := max 1 (min 10 (template.score + scoreVariation))
  { score := round1 finalScore,
    strengths := template.strengths,
    weaknesses := template.weaknesses,
    tips := template.tips,
    detailedFeedback := generateDetailedFeedback answer category,
    categoryScore := round1 finalScore,
    improvementAreas := template.weaknesses.map (fun w => (w.splitOn " ").headD "") }

/-- A routed message of the master agent (content payload omitted; the retry
logic only moves whole messages). -/
structure AgentMessage where
  id : String
  toAgent : String
  sessionId : String
deriving DecidableEq

/-- `MasterAgent.handleRoutingError`: `this.messageQueue.push(message)` (the
`setTimeout` retry it schedules is modelled by `retryTimerFire`). -/
def handleRoutingError (messageQueue : List AgentMessage) (message : AgentMessage) :
    List AgentMessage :=
  messageQueue ++ [message]

/-- One firing of the retry `setTimeout`: if the queue is nonempty, `shift`
one message and call `routeMessage` on it.  `fails` abstracts whether that
delivery attempt fails; a failing attempt emits `routing-error`, whose handler
`handleRoutingError` re-queues the message and schedules a further timer.
Returns the new queue and the list of messages attempted in this firing. -/
def retryTimerFire (fails : AgentMessage → Bool) :
    List AgentMessage → List AgentMessage × List AgentMessage
  | [] => ([], [])
  | m :: rest =>
      (if fails m then handleRoutingError rest m else rest, [m])

/-- Runs `n` retry-timer firings, collecting every delivery attempt made. -/
def runRetries (fails : AgentMessage → Bool) :
    ℕ → List AgentMessage → List AgentMessage × List AgentMessage
  | 0, queue => (queue, [])
  | n + 1, queue =>
      let fired := retryTimerFire fails queue
      let rest := runRetries fails n fired.1
      (rest.1, fired.2 ++ rest.2)

/-- Fixture: a session context with no questions asked yet. -/
def ctxEmpty : SessionContext :=
  { currentQuestionIndex := 0, questionsAsked := [],
    difficulty := Difficulty.easy, startTime := 0 }

/-- Fixture: a session that has answered `intro-1` and sits at difficulty
`medium`. -/
def ctxAfterIntro : SessionContext :=
  { currentQuestionIndex := 0,
    questionsAsked := [{ questionId := "intro-1", answer := "my answer", category := none }],
    difficulty := Difficulty.medium, startTime := 0 }

/-- Fixture: the bank's `intro-1` question. -/
def introQuestion : InterviewQuestion :=
  { id := "intro-1", category := "introduction", difficulty := Difficulty.easy }

/-- Fixture: the bank's `experience-1` question. -/
def experienceQuestion : InterviewQuestion :=
  { id := "experience-1", category := "experience", difficulty := Difficulty.medium }

/-- Fixture: a session map holding one session. -/
def sessions0 : SessionsMap :=
  fun s => if s = "session-1" then some ctxAfterIntro else none

/-- Fixture: a message whose delivery always fails. -/
def failingMessage : AgentMessage :=
  { id := "q-1", toAgent := "interviewer-agent", sessionId := "session-1" }

/-- Fixture: an interviewer operation that reads no session state. -/
def opAudio : InterviewerOp :=
  InterviewerOp.generateAudio "session-1" "audio text"

theorem mem_of_head?_eq_some {α : Type} {l : List α} {a : α}
    (h : l.head? = some a) : a ∈ l := by
  cases l with
  | nil => simp at h
  | cons x xs =>
    simp only [List.head?_cons, Option.some.injEq] at h
    exact h ▸ List.mem_cons_self x xs

theorem mem_of_getLast?_eq_some {α : Type} {l : List α} {a : α}
    (h : l.getLast? = some a) : a ∈ l := by
  induction l with
  | nil => simp at h
  | cons x xs ih =>
    cases xs with
    | nil =>
      simp only [List.getLast?_singleton, Option.some.injEq] at h
      exact h ▸ List.mem_singleton_self x
    | cons y ys =>
      rw [List.getLast?_cons_cons] at h
      exact List.mem_cons_of_mem x (ih h)

theorem jsFloorIndex_zero (n : ℕ) : jsFloorIndex 0 n = 0 := by
  simp [jsFloorIndex]

theorem jsFloorIndex_lt {rand : ℚ} {n : ℕ} (h1 : rand < 1)
    (hn : 0 < n) : jsFloorIndex rand n < n := by
  unfold jsFloorIndex
  have hfl : ⌊rand * (n : ℚ)⌋ < (n : ℤ) := by
    rw [Int.floor_lt]
    push_cast
    calc rand * (n : ℚ) < 1 * (n : ℚ) := by
          exact mul_lt_mul_of_pos_right h1 (by exact_mod_cast hn)
      _ = (n : ℚ) := one_mul _
  omega

theorem jsFloorIndex_natDiv {i n : ℕ} (h : i < n) :
    jsFloorIndex ((i : ℚ) / (n : ℚ)) n = i := by
  unfold jsFloorIndex
  have hn : (n : ℚ) ≠ 0 := Nat.cast_ne_zero.mpr (by omega)
  rw [div_mul_cancel₀ _ hn, Int.floor_natCast]
  exact Int.toNat_natCast i

theorem mem_availableQuestions {bank : List InterviewQuestion}
    {ctx : SessionContext} {q : InterviewQuestion} :
    q ∈ availableQuestions bank ctx ↔
      q ∈ bank ∧ q.id ∉ askedIds ctx ∧
        (q.difficulty = ctx.difficulty ∨ ctx.questionsAsked.length = 0) := by
  simp [availableQuestions, List.mem_filter, and_assoc]

theorem mem_remainingQuestions {bank : List InterviewQuestion}
    {ctx : SessionContext} {q : InterviewQuestion} :
    q ∈ remainingQuestions bank ctx ↔ q ∈ bank ∧ q.id ∉ askedIds ctx := by
  simp [remainingQuestions, List.mem_filter]

theorem selectedCandidates_subset {bank : List InterviewQuestion}
    {ctx : SessionContext} {q : InterviewQuestion}
    (h : q ∈ selectedCandidates bank ctx) : q ∈ availableQuestions bank ctx := by
  unfold selectedCandidates at h
  by_cases hpos :
      0 < ((availableQuestions bank ctx).filter
        (fun q => decide (some q.category ≠ lastCategoryOf ctx))).length
  · rw [if_pos hpos] at h
    exact List.mem_of_mem_filter h
  · rwa [if_neg hpos] at h

theorem selectedCandidates_ne_nil {bank : List InterviewQuestion}
    {ctx : SessionContext} (h : availableQuestions bank ctx ≠ []) :
    selectedCandidates bank ctx ≠ [] := by
  unfold selectedCandidates
  by_cases hpos :
      0 < ((availableQuestions bank ctx).filter
        (fun q => decide (some q.category ≠ lastCategoryOf ctx))).length
  · rw [if_pos hpos]
    exact List.ne_nil_of_length_pos hpos
  · rwa [if_neg hpos]

theorem select_some_cases {bank : List InterviewQuestion} {ctx : SessionContext}
    {rand : ℚ} {q : InterviewQuestion}
    (h : selectNextQuestion bank ctx rand = some q) :
    (availableQuestions bank ctx ≠ [] ∧ q ∈ availableQuestions bank ctx) ∨
      (availableQuestions bank ctx = [] ∧
        (remainingQuestions bank ctx).head? = some q) := by
  unfold selectNextQuestion at h
  by_cases hlen : (availableQuestions bank ctx).length = 0
  · rw [if_pos hlen] at h
    exact Or.inr ⟨List.length_eq_zero.mp hlen, h⟩
  · rw [if_neg hlen] at h
    left
    refine ⟨fun hnil => hlen (hnil ▸ rfl), ?_⟩
    obtain ⟨hlt, hget⟩ := List.getElem?_eq_some.mp h
    exact selectedCandidates_subset (hget ▸ List.getElem_mem hlt)

theorem lastCategoryOf_eq_none {ctx : SessionContext}
    (hcat : ∀ e ∈ ctx.questionsAsked, e.category = none) :
    lastCategoryOf ctx = none := by
  unfold lastCategoryOf
  cases hl : ctx.questionsAsked.getLast? with
  | none => rfl
  | some e =>
    exact hcat e (mem_of_getLast?_eq_some hl)

theorem selectedCandidates_eq_available {bank : List InterviewQuestion}
    {ctx : SessionContext}
    (hcat : ∀ e ∈ ctx.questionsAsked, e.category = none) :
    selectedCandidates bank ctx = availableQuestions bank ctx := by
  unfold selectedCandidates
  simp [lastCategoryOf_eq_none hcat]

theorem round1_mono {x y : ℚ} (h : x ≤ y) : round1 x ≤ round1 y := by
  unfold round1
  have hfl : ⌊x * 10 + 1 / 2⌋ ≤ ⌊y * 10 + 1 / 2⌋ :=
    Int.floor_le_floor (by linarith)
  have : ((⌊x * 10 + 1 / 2⌋ : ℤ) : ℚ) ≤ ((⌊y * 10 + 1 / 2⌋ : ℤ) : ℚ) := by
    exact_mod_cast hfl
  linarith

theorem round1_one : round1 1 = 1 := by
  unfold round1
  rw [show ((1 : ℚ) * 10 + 1 / 2) = 21 / 2 by norm_num]
  rw [show ⌊(21 / 2 : ℚ)⌋ = 10 from Int.floor_eq_iff.mpr (by norm_num)]
  norm_num

theorem round1_ten : round1 10 = 10 := by
  unfold round1
  rw [show ((10 : ℚ) * 10 + 1 / 2) = 201 / 2 by norm_num]
  rw [show ⌊(201 / 2 : ℚ)⌋ = 100 from Int.floor_eq_iff.mpr (by norm_num)]
  norm_num

theorem questionBank_category_inj :
    ∀ q ∈ questionBank, ∀ p ∈ questionBank,
      q.category = p.category → q.id = p.id := by decide

/-- C1: question selection is a filter over a static 6-to-8-item bank with a
random tie-break: a returned question is an unasked bank question whose
difficulty matches the session difficulty (waived for the first question,
and moot when the difficulty-filtered pool is empty); when that pool is
empty the first unasked question in bank order is returned; and when the
pool is nonempty the choice is by a uniformly random index over it — every
draw lands in the pool and every pool index is attained by some draw.
The hypothesis `hcat` records that asked-question entries carry no category
field (the only push site stores none there). -/
theorem C1_question_selection (ctx : SessionContext) (rand : ℚ)
    (h0 : 0 ≤ rand) (h1 : rand < 1)
    (hcat : ∀ e ∈ ctx.questionsAsked, e.category = none) :
    (6 ≤ questionBank.length ∧ questionBank.length ≤ 8 ∧
      6 ≤ serviceQuestionBank.length ∧ serviceQuestionBank.length ≤ 8) ∧
    (∀ q, selectNextQuestion questionBank ctx rand = some q →
      q ∈ questionBank ∧ q.id ∉ askedIds ctx ∧
        (q.difficulty = ctx.difficulty ∨ ctx.questionsAsked = [] ∨
          availableQuestions questionBank ctx = [])) ∧
    (availableQuestions questionBank ctx = [] →
      selectNextQuestion questionBank ctx rand =
        (remainingQuestions questionBank ctx).head?) ∧
    (availableQuestions questionBank ctx ≠ [] →
      (∃ i, i < (availableQuestions questionBank ctx).length ∧
        selectNextQuestion questionBank ctx rand =
          (availableQuestions questionBank ctx)[i]?) ∧
      (∀ i, i < (availableQuestions questionBank ctx).length →
        ∃ r, 0 ≤ r ∧ r < 1 ∧
          selectNextQuestion questionBank ctx r =
            (availableQuestions questionBank ctx)[i]?)) := by
  refine ⟨by decide, ?_, ?_, ?_⟩
  · intro q hq
    rcases select_some_cases hq with ⟨_, hmem⟩ | ⟨hemp, hhead⟩
    · obtain ⟨hb, hid, hdiff⟩ := mem_availableQuestions.mp hmem
      refine ⟨hb, hid, ?_⟩
      rcases hdiff with h | h
      · exact Or.inl h
      · exact Or.inr (Or.inl (List.length_eq_zero.mp h))
    · obtain ⟨hb, hid⟩ := mem_remainingQuestions.mp (mem_of_head?_eq_some hhead)
      exact ⟨hb, hid, Or.inr (Or.inr hemp)⟩
  · intro hemp
    have hlen : (availableQuestions questionBank ctx).length = 0 := by rw [hemp]; rfl
    unfold selectNextQuestion
    rw [if_pos hlen]
  · intro hne
    have hlen0 : (availableQuestions questionBank ctx).length ≠ 0 :=
      fun h => hne (List.length_eq_zero.mp h)
    have hsel := @selectedCandidates_eq_available questionBank ctx hcat
    constructor
    · refine ⟨jsFloorIndex rand (availableQuestions questionBank ctx).length,
        jsFloorIndex_lt h1 (Nat.pos_of_ne_zero hlen0), ?_⟩
      unfold selectNextQuestion
      rw [if_neg hlen0, hsel]
    · intro i hi
      refine ⟨(i : ℚ) / ((availableQuestions questionBank ctx).length : ℚ),
        by positivity, ?_, ?_⟩
      · rw [div_lt_one (by exact_mod_cast Nat.pos_of_ne_zero hlen0)]
        exact_mod_cast hi
      · unfold selectNextQuestion
        rw [if_neg hlen0, hsel, jsFloorIndex_natDiv hi]

/-- C1 witness: the hypotheses hold at the fresh session context and draw 0;
the bank-size conjunct is extracted. -/
theorem C1_question_selection_witness :
    6 ≤ questionBank.length ∧ questionBank.length ≤ 8 ∧
      6 ≤ serviceQuestionBank.length ∧ serviceQuestionBank.length ≤ 8 :=
  (C1_question_selection ctxEmpty 0 (by norm_num) (by norm_num) (by decide)).1

/-- C2 counterexample: the claim says a score below 6 sets the difficulty to
easy, but a score of 0 is falsy in the source's truthiness guard, so the
update is skipped and a medium session stays medium. -/
theorem C2_difficulty_claim_counterexample :
    updateDifficulty Difficulty.medium (some 0) = Difficulty.medium ∧
      Difficulty.medium ≠ Difficulty.easy := by decide

/-- C2 (amended): with a nonzero numeric score s the difficulty becomes hard
when s is at least 8, medium when s is at least 6, and easy otherwise; with
no score, or with the falsy score 0, the difficulty is left unchanged. -/
theorem C2_difficulty_adaptation (d : Difficulty) (s : ℚ) (hs : s ≠ 0) :
    updateDifficulty d none = d ∧
    updateDifficulty d (some 0) = d ∧
    updateDifficulty d (some s) =
      (if 8 ≤ s then Difficulty.hard
       else if 6 ≤ s then Difficulty.medium
       else Difficulty.easy) := by
  refine ⟨rfl, ?_, ?_⟩
  · simp [updateDifficulty]
  · simp only [updateDifficulty]
    rw [if_neg hs]

/-- C2 witness: a score of 9 moves an easy session to hard. -/
theorem C2_difficulty_adaptation_witness :
    updateDifficulty Difficulty.easy (some 9) =
      (if (8 : ℚ) ≤ 9 then Difficulty.hard
       else if (6 : ℚ) ≤ 9 then Difficulty.medium
       else Difficulty.easy) :=
  (C2_difficulty_adaptation Difficulty.easy 9 (by norm_num)).2.2

/-- C3: whenever at least one question has been asked and the most recently
asked question resolves (by id) to a bank question, every question the
selector can return has a different category from that last question.  This
holds for the shipped bank because a selected question is always unasked and
no two bank questions share a category; the source's `differentCategoryQuestions`
filter itself compares against the entries' absent `category` field and never
removes anything. -/
theorem C3_category_diversification (ctx : SessionContext) (rand : ℚ)
    (qLast : InterviewQuestion) (h1 : rand < 1)
    (hne : ctx.questionsAsked ≠ [])
    (hlast : ∃ e, ctx.questionsAsked.getLast? = some e ∧
      questionBank.find? (fun q => q.id == e.questionId) = some qLast)
    (hguard : ∃ qAlt ∈ availableQuestions questionBank ctx,
      qAlt.category ≠ qLast.category) :
    ∀ q, selectNextQuestion questionBank ctx rand = some q →
      q.category ≠ qLast.category := by
  obtain ⟨e, hgl, hfind⟩ := hlast
  have hqLmem : qLast ∈ questionBank := List.mem_of_find?_eq_some hfind
  have hqLid : qLast.id = e.questionId := by
    have hpred := List.find?_some hfind
    simpa using hpred
  have hidAsked : qLast.id ∈ askedIds ctx := by
    rw [hqLid]
    exact List.mem_map_of_mem _ (mem_of_getLast?_eq_some hgl)
  intro q hq hcontra
  have hq2 : q ∈ questionBank ∧ q.id ∉ askedIds ctx := by
    rcases select_some_cases hq with ⟨_, hmem⟩ | ⟨_, hhead⟩
    · have h := mem_availableQuestions.mp hmem
      exact ⟨h.1, h.2.1⟩
    · exact mem_remainingQuestions.mp (mem_of_head?_eq_some hhead)
  have hid : q.id = qLast.id :=
    questionBank_category_inj q hq2.1 qLast hqLmem hcontra
  exact hq2.2 (hid ▸ hidAsked)

theorem select_ctxAfterIntro :
    selectNextQuestion questionBank ctxAfterIntro 0 = some experienceQuestion := by
  have hcat : ∀ e ∈ ctxAfterIntro.questionsAsked, e.category = none := by decide
  have hav : availableQuestions questionBank ctxAfterIntro =
      [ experienceQuestion,
        { id := "technical-1", category := "technical", difficulty := Difficulty.medium },
        { id := "growth-1", category := "development", difficulty := Difficulty.medium } ] := by
    decide
  unfold selectNextQuestion
  rw [selectedCandidates_eq_available hcat, hav]
  rw [if_neg (by simp)]
  rw [jsFloorIndex_zero]
  rfl

/-- C3 witness: after answering intro-1 at difficulty medium, the draw 0
selects experience-1, whose category differs from introduction. -/
theorem C3_category_diversification_witness :
    experienceQuestion.category ≠ introQuestion.category :=
  C3_category_diversification ctxAfterIntro 0 introQuestion (by norm_num)
    (by decide)
    ⟨{ questionId := "intro-1", answer := "my answer", category := none },
      by decide, by decide⟩
    ⟨experienceQuestion, by decide, by decide⟩
    experienceQuestion select_ctxAfterIntro

/-- C4: the interview ends exactly when the bank is exhausted —
`selectNextQuestion` returns none iff every bank question id is among the
session's asked questions; `handleNextQuestion` emits the interview-complete
command (instead of a question) iff selection on the difficulty-updated
context returns none; and the frontend service's `askNextQuestion` ends the
interview iff the current question index has reached the bank length. -/
theorem C4_termination (ctx : SessionContext) (rand : ℚ)
    (previousScore : Option ℚ) (i : ℕ) (h0 : 0 ≤ rand) (h1 : rand < 1) :
    (selectNextQuestion questionBank ctx rand = none ↔
      ∀ q ∈ questionBank, q.id ∈ askedIds ctx) ∧
    ((handleNextQuestion ctx previousScore rand).2 =
        NextQuestionOutcome.interviewComplete ↔
      selectNextQuestion questionBank
        { ctx with difficulty := updateDifficulty ctx.difficulty previousScore }
        rand = none) ∧
    (serviceAskNextQuestion i = none ↔ serviceQuestionBank.length ≤ i) := by
  refine ⟨⟨?_, ?_⟩, ?_, ?_⟩
  · intro hnone q hqb
    by_contra hnotin
    by_cases hlen : (availableQuestions questionBank ctx).length = 0
    · unfold selectNextQuestion at hnone
      rw [if_pos hlen] at hnone
      have hqmem : q ∈ remainingQuestions questionBank ctx :=
        mem_remainingQuestions.mpr ⟨hqb, hnotin⟩
      rw [List.head?_eq_none_iff] at hnone
      rw [hnone] at hqmem
      simp at hqmem
    · unfold selectNextQuestion at hnone
      rw [if_neg hlen] at hnone
      have hpos : selectedCandidates questionBank ctx ≠ [] :=
        selectedCandidates_ne_nil (fun h => hlen (by rw [h]; rfl))
      have hlt := @jsFloorIndex_lt rand
        (selectedCandidates questionBank ctx).length h1
        (List.length_pos.mpr hpos)
      rw [List.getElem?_eq_getElem hlt] at hnone
      simp at hnone
  · intro hall
    have hrem : remainingQuestions questionBank ctx = [] := by
      rw [remainingQuestions, List.filter_eq_nil_iff]
      intro q hqb
      simp [hall q hqb]
    have hav : (availableQuestions questionBank ctx).length = 0 := by
      rw [List.length_eq_zero, availableQuestions, List.filter_eq_nil_iff]
      intro q hqb
      simp [hall q hqb]
    unfold selectNextQuestion
    rw [if_pos hav, hrem]
    rfl
  · simp only [handleNextQuestion]
    cases hsel : selectNextQuestion questionBank
        { ctx with difficulty := updateDifficulty ctx.difficulty previousScore }
        rand with
    | none => simp [hsel]
    | some q => simp [hsel]
  · unfold serviceAskNextQuestion
    by_cases hle : serviceQuestionBank.length ≤ i
    · rw [if_pos hle]
      simp [hle]
    · rw [if_neg hle]
      rw [List.getElem?_eq_getElem (Nat.lt_of_not_le hle)]
      simp [hle]

/-- C4 witness: the hypotheses hold at the fresh context and draw 0; the
frontend-service conjunct is extracted at index 0. -/
theorem C4_termination_witness :
    serviceAskNextQuestion 0 = none ↔ serviceQuestionBank.length ≤ 0 :=
  (C4_termination ctxEmpty 0 none 0 (by norm_num) (by norm_num)).2.2

/-- C5: when the request carries a question and an answer, the API key is
configured and the Mistral call succeeds but its message content is not
parseable JSON, the edge function still responds with status 200 and
success true, and the returned analysis is exactly the hardcoded fallback
object: score 7, the two fixed strengths, the two fixed weaknesses, the two
fixed improvement tips, the request's category, and the fixed
overall-feedback sentence. -/
theorem C5_parse_fallback (question answer category apiKey : String)
    (hq : question ≠ "") (ha : answer ≠ "") (hk : apiKey ≠ "") :
    (analyzeAnswerHandler question answer category (some apiKey)
      (MistralOutcome.ok none)).status = 200 ∧
    (analyzeAnswerHandler question answer category (some apiKey)
      (MistralOutcome.ok none)).success = true ∧
    (analyzeAnswerHandler question answer category (some apiKey)
      (MistralOutcome.ok none)).analysis =
      some (Json.obj
        [ ("score", Json.num 7),
          ("strengths", Json.arr
            [Json.str "Clear communication",
             Json.str "Relevant experience mentioned"]),
          ("weaknesses", Json.arr
            [Json.str "Could provide more specific examples",
             Json.str "Answer could be more structured"]),
          ("improvements", Json.arr
            [Json.str "Use the STAR method (Situation, Task, Action, Result)",
             Json.str "Practice providing concrete examples"]),
          ("category", Json.str category),
          ("overall_feedback",
            Json.str "Good foundation but could be more detailed and structured.") ]) := by
  simp only [analyzeAnswerHandler, hq, ha, hk]
  norm_num [fallbackAnalysis]

/-- C5 witness: the success flag at a concrete request. -/
theorem C5_parse_fallback_witness :
    (analyzeAnswerHandler "Q" "A" "technical" (some "key")
      (MistralOutcome.ok none)).success = true :=
  (C5_parse_fallback "Q" "A" "technical" "key" (by decide) (by decide)
    (by decide)).2.1

/-- C6 counterexample: the claim says the trend is stable whenever fewer than
3 scored analyses exist, but with zero analyses `getSessionStats` returns the
placeholder record whose trend is the string N/A, not stable. -/
theorem C6_trend_claim_counterexample :
    (getSessionStats []).overallTrend = "N/A" ∧
      (getSessionStats []).overallTrend ≠ "stable" := by
  exact ⟨rfl, by decide⟩

/-- C6 (amended): the trend is N/A with no analyses and stable with one or
two; with at least 3 scores the list is split at floor(n/2), and the trend is
improving exactly when the second half's mean exceeds the first half's mean
by more than 0.5, declining exactly when it is lower by more than 0.5, and
stable otherwise. -/
theorem C6_trend_detection (analyses : List AnalysisResult) :
    (getSessionStats analyses).overallTrend =
      if analyses.length = 0 then "N/A"
      else if analyses.length < 3 then "stable"
      else
        let scores := analyses.map (fun a => a.score)
        let firstHalf := scores.take (scores.length / 2)
        let secondHalf := scores.drop (scores.length / 2)
        let firstAvg := firstHalf.sum / (firstHalf.length : ℚ)
        let secondAvg := secondHalf.sum / (secondHalf.length : ℚ)
        if firstAvg + 1 / 2 < secondAvg then "improving"
        else if secondAvg < firstAvg - 1 / 2 then "declining"
        else "stable" := by
  by_cases h0 : analyses.length = 0
  · rw [if_pos h0]
    unfold getSessionStats
    rw [if_pos h0]
  · rw [if_neg h0]
    unfold getSessionStats
    rw [if_neg h0]
    show sessionTrend (analyses.map (fun a => a.score)) = _
    by_cases h3 : 3 ≤ analyses.length
    · rw [if_neg (by omega)]
      unfold sessionTrend
      rw [if_pos (by simpa using h3)]
      simp only [List.sum_eq_foldl]
    · rw [if_pos (by omega)]
      unfold sessionTrend
      rw [if_neg (by simpa using h3)]

/-- C7: the reported average score is the arithmetic mean of the recorded
feedback scores rounded to one decimal place, and 0 when nothing has been
recorded — both for the analyzer agent's `getSessionStats` and for the
frontend service's `calculateAverageScore` (no division by zero occurs:
the empty case returns 0 outright). -/
theorem C7_score_aggregation (analyses : List AnalysisResult)
    (messageHistory : List InterviewMessage) :
    ((getSessionStats analyses).averageScore =
      if analyses.length = 0 then 0
      else round1 ((analyses.map (fun a => a.score)).sum /
        ((analyses.map (fun a => a.score)).length : ℚ))) ∧
    (calculateAverageScore messageHistory =
      if (messageHistory.filter
          (fun m => decide (m.type = MsgType.feedback ∧ m.feedback ≠ none))).length = 0
      then 0
      else round1
        (((messageHistory.filter
            (fun m => decide (m.type = MsgType.feedback ∧ m.feedback ≠ none))).map
              (fun m => (m.feedback.map (fun f => f.score)).getD 0)).sum /
          ((messageHistory.filter
            (fun m => decide (m.type = MsgType.feedback ∧ m.feedback ≠ none))).length : ℚ))) := by
  constructor
  · by_cases h0 : analyses.length = 0
    · rw [if_pos h0]
      unfold getSessionStats
      rw [if_pos h0]
    · rw [if_neg h0]
      unfold getSessionStats
      rw [if_neg h0]
      show round1 _ = _
      rw [List.sum_eq_foldl]
  · unfold calculateAverageScore
    by_cases hf : (messageHistory.filter
        (fun m => decide (m.type = MsgType.feedback ∧ m.feedback ≠ none))).length = 0
    · rw [if_pos hf, if_pos hf]
    · rw [if_neg hf, if_neg hf]
      rw [List.sum_eq_foldl, List.foldl_map]

/-- C8 counterexample: a message whose delivery always fails is re-sent once
per timer firing — after 2 firings it has already been re-sent twice, so it
is not re-sent at most once. -/
theorem C8_retry_claim_counterexample :
    (runRetries (fun _ => true) 2 [failingMessage]).2.length = 2 ∧
      ¬((runRetries (fun _ => true) 2 [failingMessage]).2.length ≤ 1) := by
  decide

/-- C8 (amended): each routing failure re-queues the failed message exactly
once (`handleRoutingError` appends one copy), and each timer firing re-sends
at most one message; but a message whose delivery keeps failing is re-queued
after every failed retry, so after n firings it has been re-sent n times —
retries are unbounded across repeated failures, one per failure. -/
theorem C8_single_requeue_per_failure (fails : AgentMessage → Bool)
    (messageQueue : List AgentMessage) (m : AgentMessage) (n : ℕ)
    (hfail : fails m = true) :
    ((handleRoutingError messageQueue m).length = messageQueue.length + 1 ∧
      (handleRoutingError messageQueue m).count m = messageQueue.count m + 1) ∧
    (retryTimerFire fails messageQueue).2.length ≤ 1 ∧
    runRetries fails n [m] = ([m], List.replicate n m) := by
  refine ⟨⟨by simp [handleRoutingError], by simp [handleRoutingError]⟩, ?_, ?_⟩
  · cases messageQueue <;> simp [retryTimerFire]
  · induction n with
    | zero => simp [runRetries]
    | succ k ih =>
      simp [runRetries, retryTimerFire, hfail, handleRoutingError, ih,
        List.replicate_succ]

/-- C8 witness: the always-failing oracle satisfies the hypothesis; after 3
firings the message has been re-sent 3 times. -/
theorem C8_single_requeue_per_failure_witness :
    runRetries (fun _ => true) 3 [failingMessage] =
      ([failingMessage], List.replicate 3 failingMessage) :=
  (C8_single_requeue_per_failure (fun _ => true) [] failingMessage 3 rfl).2.2

/-- C9: `handleStartSession` installs, under the generated session id, a
fresh context with an empty asked-questions list, difficulty easy and the
start timestamp; a handled candidate answer (one whose session context
exists) appends exactly one entry to that session's asked-questions list;
and no interviewer-agent operation removes a session record. -/
theorem C9_session_invariant (sessions : SessionsMap)
    (sid sid2 questionId answer : String) (now : ℕ)
    (ctx : SessionContext) (op : InterviewerOp)
    (hctx : sessions sid = some ctx) (hlive : sessions sid2 ≠ none) :
    (stepInterviewer sessions (InterviewerOp.startSession sid now) sid =
      some { currentQuestionIndex := 0, questionsAsked := [],
             difficulty := Difficulty.easy, startTime := now }) ∧
    (stepInterviewer sessions (InterviewerOp.candidateAnswer sid questionId answer) sid =
      some { ctx with questionsAsked := ctx.questionsAsked ++
        [{ questionId := questionId, answer := answer, category := none }] }) ∧
    stepInterviewer sessions op sid2 ≠ none := by
  refine ⟨?_, ?_, ?_⟩
  · simp [stepInterviewer, mapSet]
  · simp [stepInterviewer, hctx, mapSet]
  · cases op with
    | startSession s t =>
      simp only [stepInterviewer, mapSet]
      split
      · simp
      · exact hlive
    | candidateAnswer s q a =>
      simp only [stepInterviewer]
      cases hs : sessions s with
      | none => exact hlive
      | some c =>
        simp only [mapSet]
        split
        · simp
        · exact hlive
    | nextQuestion s ps r =>
      simp only [stepInterviewer]
      cases hs : sessions s with
      | none => exact hlive
      | some c =>
        simp only [mapSet]
        split
        · simp
        · exact hlive
    | generateAudio s t => exact hlive

/-- C9 witness: the hypotheses hold for a map with one live session; the
no-removal conjunct is extracted. -/
theorem C9_session_invariant_witness :
    stepInterviewer sessions0 opAudio "session-1" ≠ none :=
  (C9_session_invariant sessions0 "session-1" "session-1" "intro-1" "hello" 7
    ctxAfterIntro opAudio (by decide) (by decide)).2.2

theorem round1_clamp_bounds (x : ℚ) :
    1 ≤ round1 (max 1 (min 10 x)) ∧ round1 (max 1 (min 10 x)) ≤ 10 := by
  constructor
  · calc (1 : ℚ) = round1 1 := round1_one.symm
      _ ≤ round1 (max 1 (min 10 x)) := round1_mono (le_max_left _ _)
  · calc round1 (max 1 (min 10 x)) ≤ round1 10 :=
        round1_mono (max_le (by norm_num) (min_le_left _ _))
      _ = 10 := round1_ten

theorem generateFeedback_score_eq (questionId answer : String) (r : ℚ) :
    (generateFeedback questionId answer r).score =
      round1 (max 1 (min 10 ((analysisTemplates answer
        (match serviceQuestionBank.find? (fun q => q.id == questionId) with
         | some q => if q.category = "" then "general" else q.category
         | none => "general")).score + (r - 1 / 2) * (3 / 2)))) := rfl

/-- C10: the generated feedback's score equals its category score, both lie
in the interval from 1 to 10 and are multiples of one tenth (rounded to one
decimal place), and the keyword-based raw score of `calculateScore` never
exceeds 9. -/
theorem C10_feedback_bounds (questionId answer : String) (r : ℚ)
    (expectedKeywords : List String) :
    ((generateFeedback questionId answer r).score =
      (generateFeedback questionId answer r).categoryScore) ∧
    (1 ≤ (generateFeedback questionId answer r).score ∧
      (generateFeedback questionId answer r).score ≤ 10) ∧
    (∃ z : ℤ, (generateFeedback questionId answer r).score = (z : ℚ) / 10) ∧
    calculateScore answer expectedKeywords ≤ 9 := by
  refine ⟨rfl, ?_, ?_, ?_⟩
  · rw [generateFeedback_score_eq]
    exact round1_clamp_bounds _
  · rw [generateFeedback_score_eq]
    exact ⟨_, rfl⟩
  · show min (9 : ℚ) _ ≤ 9
    exact min_le_left _ _
